import Mathlib

/-!
Verification development for the NextNest backend (Express/Mongoose).

The donation ledger, payment verification and scheme-matching logic of the
backend controllers is shallowly embedded below.  Object ids, ObjectId
references and enum values are modelled as `String`; optional request/document
fields as `Option`; the persistent store as an explicit `DB` record threaded
through each operation; the HMAC-SHA256 primitive of node `crypto` as an
abstract function parameter `hmacSha256 : String → String → String`.

The repository contains divergent iterations of the Donation schema.  The
embedding follows the complete version (the one the donation and payment
controllers are written against, and the only loadable one): fields
amount (required Number), message (optional String), fundType (enum
["bulk", "accessory", "individual_sponsorship", "medical", "general"],
required with default "general"), targetRef (optional ref), targetModel
(optional, enum ["User", "Child", "MedicalCase"]), donor (required ref),
orphanage (optional ref).
-/

namespace NextNest

/-- JS truthiness of an optional string field of a request body:
`undefined` and the empty string are falsy, every other string is truthy. -/
def strTruthy : Option String → Bool
  | none => false
  | some s => !(s == "")

/-- JS `s || d` for an optional string `s` and default string `d`. -/
def strOrDefault : Option String → String → String
  | none, d => d
  | some s, d => if s == "" then d else s

/-- Child document (models/Child.js): name required, age an optional Number,
orphanage an optional reference to a User account. -/
structure Child where
  id : String
  name : String
  age : Option Int
  education : Option String
  skills : List String
  orphanage : Option String
deriving Repr, DecidableEq

/-- Eligibility rules sub-document of a Scheme (models/Scheme.js):
minAge, maxAge optional Numbers; requiredDocuments, targetGroup string lists. -/
structure EligibilityRules where
  minAge : Option Int
  maxAge : Option Int
  requiredDocuments : List String
  targetGroup : List String
deriving Repr, DecidableEq

/-- Scheme document (models/Scheme.js), restricted to the fields the matching
endpoint reads. `eligibilityRules` is optional: the controller's
or-else-empty-object fallback guards against its absence. -/
structure Scheme where
  id : String
  name : String
  eligibilityRules : Option EligibilityRules
deriving Repr, DecidableEq

/-- A persisted Donation ledger record (models/Donation.js, complete version). -/
structure Donation where
  donor : String
  amount : Int
  message : Option String
  fundType : String
  targetRef : Option String
  targetModel : Option String
  orphanage : Option String
deriving Repr, DecidableEq

/-- The fundType enum of the Donation schema. -/
def fundTypeEnum : List String :=
  ["bulk", "accessory", "individual_sponsorship", "medical", "general"]

/-- The targetModel enum of the Donation schema. -/
def targetModelEnum : List String := ["User", "Child", "MedicalCase"]

/-- Field values handed to `Donation.create`; every field may be absent,
mirroring a JS object whose properties may be `undefined`. -/
structure DonationInput where
  donor : Option String
  amount : Option Int
  message : Option String
  fundType : Option String
  targetRef : Option String
  targetModel : Option String
  orphanage : Option String
deriving Repr, DecidableEq

/-- `Donation.create` at the Mongoose schema level: `amount` and `donor` are
required (absent value → ValidationError), `fundType` defaults to "general"
and must lie in its enum, `targetModel` is optional but enum-checked,
`message`, `targetRef` and `orphanage` are optional and unchecked.  The schema
imposes no lower bound on `amount`: any present number is accepted. -/
def donationCreate (i : DonationInput) : Except String Donation :=
  let ft := i.fundType.getD "general"
  match i.amount, i.donor with
  | some a, some dn =>
    if fundTypeEnum.contains ft
        && (match i.targetModel with
            | none => true
            | some tm => targetModelEnum.contains tm) then
      .ok { donor := dn, amount := a, message := i.message, fundType := ft,
            targetRef := i.targetRef, targetModel := i.targetModel,
            orphanage := i.orphanage }
    else
      .error "ValidationError"
  | _, _ => .error "ValidationError"

/-- The persistent store: Child and Scheme collections plus the Donation
ledger, in insertion order. -/
structure DB where
  children : List Child
  schemes : List Scheme
  donations : List Donation
deriving Repr, DecidableEq

/-- `Child.findById` over the children collection. -/
def findChildById (db : DB) (cid : String) : Option Child :=
  db.children.find? (fun c => c.id == cid)

/-- `Scheme.findById` over the schemes collection. -/
def findSchemeById (db : DB) (sid : String) : Option Scheme :=
  db.schemes.find? (fun s => s.id == sid)

/-- Outcome of a donation-creating HTTP handler: a status code with the
persisted record on success, or a status code with an error message. -/
inductive DonationResult where
  | created (status : Nat) (d : Donation)
  | error (status : Nat) (msg : String)
deriving Repr, DecidableEq

/-- Request body of POST /donations as read by the controller, together with
the authenticated principal `req.user.id` installed by the auth middleware. -/
structure DonationReq where
  userId : String
  amount : Option Int
  message : Option String
  childId : Option String
  orphanageId : Option String
deriving Repr, DecidableEq

/-- `createDonation` (controllers/donationController.js): resolve the funding
target — if `childId` is truthy and the child exists, take the child's
orphanage, fundType "individual_sponsorship" and a Child target; otherwise
keep the caller-supplied orphanageId, fundType "general" and no target — then
default the message on the truthiness of `childId`, and persist via
`Donation.create`.  A rejected create is caught and surfaced as a 500
response, leaving the store unchanged; success responds 201 with the record.
The Socket.io `new_donation` emit is a best-effort notification that touches
no persistent state and is omitted from the state transition.  The resolution
step is named `createDonationInput`; `createDonation` persists its result. -/
def createDonationInput (db : DB) (r : DonationReq) : DonationInput :=
  let resolvedChild : Option Child :=
    if strTruthy r.childId then findChildById db (r.childId.getD "") else none
  let orphanageId : Option String :=
    match resolvedChild with
    | some c => c.orphanage
    | none => r.orphanageId
  let fundType : String :=
    match resolvedChild with
    | some _ => "individual_sponsorship"
    | none => "general"
  let targetModel : Option String :=
    match resolvedChild with
    | some _ => some "Child"
    | none => none
  let targetRef : Option String :=
    match resolvedChild with
    | some _ => r.childId
    | none => none
  let msg : String :=
    strOrDefault r.message
      (if strTruthy r.childId then "Donation for Child"
       else "Donation for General Support")
  { donor := some r.userId, amount := r.amount, message := some msg,
    fundType := some fundType, targetRef := targetRef,
    targetModel := targetModel, orphanage := orphanageId }

def createDonation (db : DB) (r : DonationReq) : DonationResult × DB :=
  match donationCreate (createDonationInput db r) with
  | .ok d => (.created 201 d, { db with donations := db.donations ++ [d] })
  | .error e => (.error 500 e, db)

/-- Request body of POST /payment/verifyPayment plus the authenticated
principal. -/
structure PaymentReq where
  userId : String
  orderId : String
  paymentId : String
  signature : String
  amount : Option Int
  message : Option String
  childId : Option String
  orphanageId : Option String
deriving Repr, DecidableEq

/-- The expected signature recomputed by the payment controller:
HMAC-SHA256 over `razorpay_order_id + "|" + razorpay_payment_id` keyed with
the gateway secret. -/
def expectedSignature (hmacSha256 : String → String → String) (secret : String)
    (orderId paymentId : String) : String :=
  hmacSha256 secret (orderId ++ "|" ++ paymentId)

/-- `verifyPayment` (controllers/paymentController.js): recompute the expected
HMAC signature and compare it with the supplied one.  On mismatch respond 400
"Verification Failed" without touching the store.  On match run the same
target resolution as `createDonation` (child lookup, orphanage override,
fundType, message default) and persist via `Donation.create`; a rejected
create is caught as a 500 "Internal server error" response.  Success responds
200 with the record.  No previously created gateway order is consulted.  The
resolution step, written out a second time in the payment controller, is
named `verifyPaymentDonationInput`; `verifyPayment` guards and persists. -/
def verifyPaymentDonationInput (db : DB) (r : PaymentReq) : DonationInput :=
  let resolvedChild : Option Child :=
    if strTruthy r.childId then findChildById db (r.childId.getD "") else none
  let orphanageId : Option String :=
    match resolvedChild with
    | some c => c.orphanage
    | none => r.orphanageId
  let fundType : String :=
    match resolvedChild with
    | some _ => "individual_sponsorship"
    | none => "general"
  let targetModel : Option String :=
    match resolvedChild with
    | some _ => some "Child"
    | none => none
  let targetRef : Option String :=
    match resolvedChild with
    | some _ => r.childId
    | none => none
  let msg : String :=
    strOrDefault r.message
      (if strTruthy r.childId then "Donation for Child"
       else "Donation for General Support")
  { donor := some r.userId, amount := r.amount, message := some msg,
    fundType := some fundType, targetRef := targetRef,
    targetModel := targetModel, orphanage := orphanageId }

def verifyPayment (hmacSha256 : String → String → String) (secret : String)
    (db : DB) (r : PaymentReq) : DonationResult × DB :=
  let expected := expectedSignature hmacSha256 secret r.orderId r.paymentId
  let isAuthentic := expected == r.signature
  if isAuthentic then
    match donationCreate (verifyPaymentDonationInput db r) with
    | .ok d => (.created 200 d, { db with donations := db.donations ++ [d] })
    | .error _ => (.error 500 "Internal server error", db)
  else
    (.error 400 "Verification Failed", db)

/-- The payment request carries the same donation-intent fields as a direct
donation request; this projection expresses "the same inputs" when comparing
`verifyPayment` with `createDonation`. -/
def paymentToDonationReq (r : PaymentReq) : DonationReq :=
  { userId := r.userId, amount := r.amount, message := r.message,
    childId := r.childId, orphanageId := r.orphanageId }

/-- `getMyDonations` (controllers/donationController.js): read-only projection
of the ledger filtered to the authenticated donor's own records. -/
def getMyDonations (db : DB) (userId : String) : (Nat × List Donation) × DB :=
  let ds := db.donations.filter (fun d => d.donor == userId)
  ((ds.length, ds), db)

/-- The inline POST "/" handler of routes/donationRoutes.js.  Its body
evaluates the free identifier `Donation`, which is bound nowhere in that
module (the file imports only the controller functions and never requires the
model), so every invocation throws a ReferenceError before any store access;
the catch block maps it to a 500 response with message "Donation failed".
The imported `createDonation` controller is never called by this route. -/
def donationRoutePostHandler (db : DB) (_r : DonationReq) : DonationResult × DB :=
  (.error 500 "Donation failed", db)

/-- The inline GET "/" handler of routes/donationRoutes.js: a read-only
listing of the whole ledger for the admin role. -/
def donationRouteGetAll (db : DB) : List Donation × DB :=
  (db.donations, db)

/-- Empty eligibility rules, the `\x7b\x7d` fallback of
`scheme.eligibilityRules || \x7b\x7d`. -/
def emptyRules : EligibilityRules :=
  { minAge := none, maxAge := none, requiredDocuments := [], targetGroup := [] }

/-- The age filter built by `getSchemeMatches`: when at least one of minAge
and maxAge is present, the Mongo query `\x7bage: \x7b$gte?, $lte?\x7d\x7d` is
issued, which matches only documents whose age is a present number inside the
stated bounds (a document with no age never matches a numeric comparison);
when neither bound is present, no age condition is added and every document
matches. -/
def ageQueryFilter (elig : EligibilityRules) (c : Child) : Bool :=
  if elig.minAge.isSome || elig.maxAge.isSome then
    match c.age with
    | none => false
    | some a =>
      (match elig.minAge with
       | some m => decide (m ≤ a)
       | none => true)
      && (match elig.maxAge with
          | some mx => decide (a ≤ mx)
          | none => true)
  else
    true

/-- Outcome of GET /schemes/:id/matches. -/
inductive MatchesResult where
  | notFound (status : Nat) (msg : String)
  | ok (status : Nat) (count : Nat) (schemeName : String) (data : List Child)
deriving Repr, DecidableEq

/-- `getSchemeMatches` (controllers/schemeController.js): look the scheme up
(404 when absent), build the age query from whichever of minAge/maxAge are
present in its eligibility rules, and return every child matching the query.
The `.select(...)` projection restricts the returned fields of each child but
not the membership of the result, so the full records are returned here. -/
def getSchemeMatches (db : DB) (sid : String) : MatchesResult :=
  match findSchemeById db sid with
  | none => .notFound 404 "Scheme not found"
  | some scheme =>
    let eligibility := scheme.eligibilityRules.getD emptyRules
    let children := db.children.filter (ageQueryFilter eligibility)
    .ok 200 children.length scheme.name children

/-- The eligibility predicate exactly as the specification words it: the
conjunction of whichever age bounds are present, each bound requiring the
child's age to satisfy it (an unset age satisfies no bound), and the empty
conjunction when neither bound is present.  requiredDocuments and targetGroup
do not occur. -/
def claimAgePred (elig : EligibilityRules) (c : Child) : Bool :=
  (match elig.minAge with
   | some m => (match c.age with | some a => decide (m ≤ a) | none => false)
   | none => true)
  && (match elig.maxAge with
      | some mx => (match c.age with | some a => decide (a ≤ mx) | none => false)
      | none => true)

/-- Observation of a payment-endpoint outcome: true exactly on the 400
authenticity rejection (the signature-mismatch path). -/
def paymentRejected : DonationResult × DB → Bool
  | (.error 400 _, _) => true
  | _ => false

/-- An empty store, used to evaluate claims on concrete inputs. -/
def dbEmpty : DB := { children := [], schemes := [], donations := [] }

/-- A sample child registered to orphanage "o1". -/
def childC1 : Child :=
  { id := "c1", name := "Asha", age := some 10, education := none,
    skills := [], orphanage := some "o1" }

/-- A sample child with no age recorded. -/
def childNoAge : Child :=
  { id := "c2", name := "Ravi", age := none, education := none,
    skills := [], orphanage := some "o1" }

/-- A store holding the two sample children. -/
def dbOneChild : DB :=
  { children := [childC1, childNoAge], schemes := [], donations := [] }

/-- A scheme whose rule sets only minAge. -/
def schemeMinOnly : Scheme :=
  { id := "s1", name := "MinOnly",
    eligibilityRules := some
      { minAge := some 6, maxAge := none, requiredDocuments := ["Aadhaar"],
        targetGroup := ["orphan"] } }

/-- A scheme whose rule sets neither bound. -/
def schemeNoBounds : Scheme :=
  { id := "s2", name := "NoBounds",
    eligibilityRules := some
      { minAge := none, maxAge := none, requiredDocuments := [],
        targetGroup := [] } }

/-- A store holding the sample children and schemes. -/
def dbWithSchemes : DB :=
  { children := [childC1, childNoAge], schemes := [schemeMinOnly, schemeNoBounds],
    donations := [] }

/-- A sample general donation request of amount 100. -/
def reqGeneral100 : DonationReq :=
  { userId := "donor1", amount := some 100, message := none,
    childId := none, orphanageId := none }

/-- A sample sponsorship request naming child "c1" while trying to direct the
donation to a different orphanage "o2". -/
def reqChildO2 : DonationReq :=
  { userId := "donor1", amount := some 50, message := none,
    childId := some "c1", orphanageId := some "o2" }

/-- A concrete stand-in for the abstract HMAC primitive, used only to
evaluate theorems with hypotheses at concrete inputs. -/
def hmacSample (key msg : String) : String := key ++ "#" ++ msg

/-- A sample payment-verification request of amount 75 whose signature equals
`hmacSample "sk" ("o1" ++ "|" ++ "p1")`. -/
def reqPay75 : PaymentReq :=
  { userId := "donor1", orderId := "o1", paymentId := "p1",
    signature := "sk#o1|p1", amount := some 75, message := none,
    childId := some "c1", orphanageId := none }

/-! Helper lemmas shared by the claim theorems. -/

lemma fundTypeEnum_contains_individual :
    "individual_sponsorship" ∈ fundTypeEnum := by decide

lemma fundTypeEnum_contains_general :
    "general" ∈ fundTypeEnum := by decide

lemma targetModelEnum_contains_child :
    "Child" ∈ targetModelEnum := by decide

/-- When the child lookup resolves, the resolution yields a sponsorship input
targeting the child, with the child's orphanage overriding the caller's. -/
lemma createDonationInput_resolved (db : DB) (r : DonationReq) (c : Child)
    (hres : (if strTruthy r.childId then findChildById db (r.childId.getD "")
             else none) = some c) :
    createDonationInput db r =
      { donor := some r.userId, amount := r.amount,
        message := some (strOrDefault r.message "Donation for Child"),
        fundType := some "individual_sponsorship", targetRef := r.childId,
        targetModel := some "Child", orphanage := c.orphanage } := by
  have ht : strTruthy r.childId = true := by
    by_contra hfalse
    rw [Bool.not_eq_true] at hfalse
    rw [hfalse] at hres
    simp at hres
  have hfind : findChildById db (r.childId.getD "") = some c := by
    rw [ht] at hres
    simpa using hres
  unfold createDonationInput
  simp [ht, hfind]

/-- When no child resolves, the resolution yields a general untargeted input
keeping the caller-supplied orphanage, with the message template chosen on
the presence of childId. -/
lemma createDonationInput_unresolved (db : DB) (r : DonationReq)
    (hres : (if strTruthy r.childId then findChildById db (r.childId.getD "")
             else none) = (none : Option Child)) :
    createDonationInput db r =
      { donor := some r.userId, amount := r.amount,
        message := some (strOrDefault r.message
          (if strTruthy r.childId then "Donation for Child"
           else "Donation for General Support")),
        fundType := some "general", targetRef := none, targetModel := none,
        orphanage := r.orphanageId } := by
  unfold createDonationInput
  simp [hres]

/-- The payment controller's copy of the resolution agrees with the donation
controller's on the projected request. -/
lemma verifyPaymentDonationInput_eq (db : DB) (r : PaymentReq) :
    verifyPaymentDonationInput db r = createDonationInput db (paymentToDonationReq r) := by
  rfl

/-- The age filter issued by the controller agrees pointwise with the
specification's bound-conjunction predicate. -/
lemma ageQueryFilter_eq_claimAgePred (elig : EligibilityRules) (c : Child) :
    ageQueryFilter elig c = claimAgePred elig c := by
  unfold ageQueryFilter claimAgePred
  cases hm : elig.minAge <;> cases hx : elig.maxAge <;> cases ha : c.age <;>
    simp [hm, hx, ha]

/-- The signature verdict of verifyPayment, observed through the 400
rejection, is exactly the negation of the HMAC comparison. -/
lemma paymentRejected_verifyPayment (hmacSha256 : String → String → String)
    (secret : String) (db : DB) (r : PaymentReq) :
    paymentRejected (verifyPayment hmacSha256 secret db r)
      = !(expectedSignature hmacSha256 secret r.orderId r.paymentId
          == r.signature) := by
  simp only [verifyPayment]
  cases hb : (expectedSignature hmacSha256 secret r.orderId r.paymentId
      == r.signature) with
  | false => simp [hb, paymentRejected]
  | true =>
    simp only [hb, if_true]
    cases hdc : donationCreate (verifyPaymentDonationInput db r) with
    | ok d => rfl
    | error e => rfl

/-- An authentic payment request with a present amount creates the very
record that createDonation would create from the projected request, and
appends exactly it to the ledger. -/
lemma verifyPayment_accept_helper (hmacSha256 : String → String → String)
    (secret : String) (db : DB) (r : PaymentReq) (a : Int)
    (hsig : r.signature = expectedSignature hmacSha256 secret r.orderId r.paymentId)
    (hamt : r.amount = some a) :
    ∃ d, verifyPayment hmacSha256 secret db r
        = (.created 200 d, { db with donations := db.donations ++ [d] }) ∧
      d.amount = a ∧
      createDonation db (paymentToDonationReq r)
        = (.created 201 d, { db with donations := db.donations ++ [d] }) := by
  have hb : (expectedSignature hmacSha256 secret r.orderId r.paymentId
      == r.signature) = true := by simp [hsig]
  have hvp : verifyPayment hmacSha256 secret db r =
      match donationCreate (createDonationInput db (paymentToDonationReq r)) with
      | .ok d => (.created 200 d, { db with donations := db.donations ++ [d] })
      | .error _ => (.error 500 "Internal server error", db) := by
    simp [verifyPayment, hb, verifyPaymentDonationInput_eq]
  have hamt' : (paymentToDonationReq r).amount = some a := hamt
  cases hres : (if strTruthy (paymentToDonationReq r).childId
      then findChildById db ((paymentToDonationReq r).childId.getD "")
      else none) with
  | some c =>
    have hin := createDonationInput_resolved db (paymentToDonationReq r) c hres
    refine ⟨{ donor := (paymentToDonationReq r).userId, amount := a,
              message := some (strOrDefault (paymentToDonationReq r).message
                "Donation for Child"),
              fundType := "individual_sponsorship",
              targetRef := (paymentToDonationReq r).childId,
              targetModel := some "Child", orphanage := c.orphanage },
            ?_, rfl, ?_⟩
    · rw [hvp, hin]
      unfold donationCreate
      simp [hamt', fundTypeEnum_contains_individual, targetModelEnum_contains_child]
    · unfold createDonation
      rw [hin]
      unfold donationCreate
      simp [hamt', fundTypeEnum_contains_individual, targetModelEnum_contains_child]
  | none =>
    have hin := createDonationInput_unresolved db (paymentToDonationReq r) hres
    refine ⟨{ donor := (paymentToDonationReq r).userId, amount := a,
              message := some (strOrDefault (paymentToDonationReq r).message
                (if strTruthy (paymentToDonationReq r).childId
                 then "Donation for Child"
                 else "Donation for General Support")),
              fundType := "general", targetRef := none, targetModel := none,
              orphanage := (paymentToDonationReq r).orphanageId },
            ?_, rfl, ?_⟩
    · rw [hvp, hin]
      unfold donationCreate
      simp [hamt', fundTypeEnum_contains_general]
    · unfold createDonation
      rw [hin]
      unfold donationCreate
      simp [hamt', fundTypeEnum_contains_general]

/-- C1: every call to verifyPayment whose supplied signature differs from the
recomputed HMAC-SHA256 of `orderId ++ "|" ++ paymentId` under the secret key
rejects with the 400 "Verification Failed" authenticity error, and the store
— in particular the donation ledger — is returned unchanged. -/
theorem verifyPayment_mismatch_rejects (hmacSha256 : String → String → String)
    (secret : String) (db : DB) (r : PaymentReq)
    (h : r.signature ≠ expectedSignature hmacSha256 secret r.orderId r.paymentId) :
    verifyPayment hmacSha256 secret db r = (.error 400 "Verification Failed", db) := by
  unfold verifyPayment
  have hb : (expectedSignature hmacSha256 secret r.orderId r.paymentId == r.signature)
      = false := by
    simp [Ne.symm h]
  simp [hb]

/-- C1 witness: a concrete mismatched signature is rejected with the ledger
unchanged. -/
theorem verifyPayment_mismatch_rejects_witness :
    "bad" ≠ expectedSignature hmacSample "sk" "o1" "p1" ∧
    verifyPayment hmacSample "sk" dbEmpty
      { userId := "donor1", orderId := "o1", paymentId := "p1",
        signature := "bad", amount := some 100, message := none,
        childId := none, orphanageId := none }
      = (.error 400 "Verification Failed", dbEmpty) :=
  ⟨by decide, verifyPayment_mismatch_rejects hmacSample "sk" dbEmpty _ (by decide)⟩

/-- C8: the donation ledger is append-only.  Every in-scope operation —
createDonation, verifyPayment, getMyDonations and the two inline donation
route handlers — either returns the store unchanged or extends the ledger at
its end; no existing Donation record is ever mutated or deleted. -/
theorem donation_ledger_append_only (db : DB) (uid : String) :
    (∀ r : DonationReq, ∃ extra,
      ((createDonation db r).2).donations = db.donations ++ extra) ∧
    (∀ (hmacSha256 : String → String → String) (secret : String) (r : PaymentReq),
      ∃ extra,
        ((verifyPayment hmacSha256 secret db r).2).donations = db.donations ++ extra) ∧
    (getMyDonations db uid).2 = db ∧
    (∀ r : DonationReq, (donationRoutePostHandler db r).2 = db) ∧
    (donationRouteGetAll db).2 = db := by
  refine ⟨?_, ?_, rfl, fun _ => rfl, rfl⟩
  · intro r
    unfold createDonation
    cases hdc : donationCreate (createDonationInput db r) with
    | ok d => exact ⟨[d], rfl⟩
    | error e => exact ⟨[], by simp⟩
  · intro hmacSha256 secret r
    simp only [verifyPayment]
    by_cases hb : (expectedSignature hmacSha256 secret r.orderId r.paymentId
        == r.signature) = true
    · rw [if_pos hb]
      cases hdc : donationCreate (verifyPaymentDonationInput db r) with
      | ok d => exact ⟨[d], rfl⟩
      | error e => exact ⟨[], by simp⟩
    · rw [if_neg hb]
      exact ⟨[], by simp⟩

/-- C2: every createDonation call whose childId names an existing child (a
nonempty id found in the store) persists a donation with
fundType "individual_sponsorship", target kind Child, target reference equal
to the childId, and beneficiary orphanage equal to the child's registered
orphanage, whatever orphanageId the caller supplied.  The amount must be
present for the record to persist. -/
theorem createDonation_child_target (db : DB) (r : DonationReq) (cid : String)
    (c : Child) (a : Int)
    (hcid : r.childId = some cid) (hne : cid ≠ "")
    (hfound : findChildById db cid = some c)
    (hamt : r.amount = some a) :
    ∃ d, createDonation db r
        = (.created 201 d, { db with donations := db.donations ++ [d] }) ∧
      d.fundType = "individual_sponsorship" ∧
      d.targetModel = some "Child" ∧
      d.targetRef = some cid ∧
      d.orphanage = c.orphanage := by
  have hres : (if strTruthy r.childId then findChildById db (r.childId.getD "")
               else none) = some c := by
    simp [strTruthy, hcid, hne, hfound]
  have hin := createDonationInput_resolved db r c hres
  refine ⟨{ donor := r.userId, amount := a,
            message := some (strOrDefault r.message "Donation for Child"),
            fundType := "individual_sponsorship", targetRef := some cid,
            targetModel := some "Child", orphanage := c.orphanage },
          ?_, rfl, rfl, rfl, rfl⟩
  unfold createDonation
  rw [hin]
  unfold donationCreate
  simp [hamt, hcid, fundTypeEnum_contains_individual, targetModelEnum_contains_child]

/-- C2 witness: the sample request names child "c1" (registered to "o1") and
asks for orphanage "o2"; the persisted record targets the child and carries
orphanage "o1". -/
theorem createDonation_child_target_witness :
    (reqChildO2.childId = some "c1" ∧ "c1" ≠ "" ∧
      findChildById dbOneChild "c1" = some childC1 ∧
      reqChildO2.amount = some 50) ∧
    ∃ d, createDonation dbOneChild reqChildO2
        = (.created 201 d,
           { dbOneChild with donations := dbOneChild.donations ++ [d] }) ∧
      d.fundType = "individual_sponsorship" ∧
      d.targetModel = some "Child" ∧
      d.targetRef = some "c1" ∧
      d.orphanage = childC1.orphanage :=
  ⟨⟨rfl, by decide, by decide, rfl⟩,
   createDonation_child_target dbOneChild reqChildO2 "c1" childC1 50 rfl
     (by decide) (by decide) rfl⟩

/-- C6: the claim says a non-positive amount fails with a ValidationError and
persists nothing; the code has no such check.  At the concrete input
amount = -5 the operation succeeds with status 201 and appends a ledger
record of amount -5, exhibiting the code bug. -/
theorem createDonation_accepts_negative_amount :
    createDonation dbEmpty
      { userId := "donor1", amount := some (-5), message := none,
        childId := none, orphanageId := none }
      = (.created 201
          { donor := "donor1", amount := -5,
            message := some "Donation for General Support",
            fundType := "general", targetRef := none, targetModel := none,
            orphanage := none },
         { children := [], schemes := [],
           donations := [⟨"donor1", -5, some "Donation for General Support",
             "general", none, none, none⟩] }) := by
  rfl

/-- C7 counterexample: with childId = "cx" naming no child in the store and
no message supplied, the persisted donation is general and untargeted as the
claim says, but its defaulted message is "Donation for Child", not the
claimed "Donation for General Support" — the template keys on the presence
of childId, not on whether the child resolved. -/
theorem createDonation_lookup_failure_message_counterexample :
    (createDonation dbOneChild
      { userId := "donor1", amount := some 5, message := none,
        childId := some "cx", orphanageId := none }).1
      = .created 201
          { donor := "donor1", amount := 5,
            message := some "Donation for Child", fundType := "general",
            targetRef := none, targetModel := none, orphanage := none } ∧
    ("Donation for Child" : String) ≠ "Donation for General Support" :=
  ⟨rfl, by decide⟩

/-- C7 (amended): when no child target resolves — childId absent, empty, or
naming no existing child — the persisted donation has fund classification
"general", no target kind or reference, beneficiary orphanage exactly as
supplied by the caller (possibly none, the platform-wide general fund), and,
when the caller supplies no message, the message defaults to
"Donation for General Support" when childId was absent but to
"Donation for Child" when a childId was supplied and the lookup failed. -/
theorem createDonation_no_target (db : DB) (r : DonationReq) (a : Int)
    (hamt : r.amount = some a)
    (hnores : r.childId = none ∨ r.childId = some "" ∨
      ∃ cid, r.childId = some cid ∧ findChildById db cid = none) :
    ∃ d, createDonation db r
        = (.created 201 d, { db with donations := db.donations ++ [d] }) ∧
      d.fundType = "general" ∧ d.targetRef = none ∧ d.targetModel = none ∧
      d.orphanage = r.orphanageId ∧ d.amount = a ∧
      (r.message = none →
        d.message = some (if strTruthy r.childId then "Donation for Child"
                          else "Donation for General Support")) := by
  have hres : (if strTruthy r.childId then findChildById db (r.childId.getD "")
               else none) = (none : Option Child) := by
    rcases hnores with h | h | ⟨cid, hcid, hmiss⟩
    · simp [strTruthy, h]
    · simp [strTruthy, h]
    · by_cases hne : cid = ""
      · simp [strTruthy, hcid, hne]
      · simp [strTruthy, hcid, hne, hmiss]
  have hin := createDonationInput_unresolved db r hres
  refine ⟨{ donor := r.userId, amount := a,
            message := some (strOrDefault r.message
              (if strTruthy r.childId then "Donation for Child"
               else "Donation for General Support")),
            fundType := "general", targetRef := none, targetModel := none,
            orphanage := r.orphanageId },
          ?_, rfl, rfl, rfl, rfl, rfl, ?_⟩
  · unfold createDonation
    rw [hin]
    unfold donationCreate
    simp [hamt, fundTypeEnum_contains_general]
  · intro hmsg
    simp [strOrDefault, hmsg]

/-- C7 witness for the amended statement: childId "cx" resolves no child, the
record keeps the caller's absent orphanage and, with no message supplied,
defaults to the childId-keyed template. -/
theorem createDonation_no_target_witness :
    ((some 5 : Option Int) = some 5) ∧
    ∃ d, createDonation dbOneChild
        { userId := "donor1", amount := some 5, message := none,
          childId := some "cx", orphanageId := none }
        = (.created 201 d,
           { dbOneChild with donations := dbOneChild.donations ++ [d] }) ∧
      d.fundType = "general" ∧ d.targetRef = none ∧ d.targetModel = none ∧
      d.orphanage = none ∧ d.amount = 5 ∧
      ((none : Option String) = none →
        d.message = some (if strTruthy (some "cx") then "Donation for Child"
                          else "Donation for General Support")) :=
  ⟨rfl, createDonation_no_target dbOneChild
    { userId := "donor1", amount := some 5, message := none,
      childId := some "cx", orphanageId := none } 5 rfl
    (Or.inr (Or.inr ⟨"cx", rfl, by decide⟩))⟩

/-- C3: every verifyPayment call whose supplied signature equals the
recomputed HMAC and whose amount is present creates exactly one Donation
record, appended to the ledger, whose amount is the input amount, and that
record — fundType, target kind and reference, beneficiary orphanage, default
message — is exactly the record createDonation produces on the same
inputs. -/
theorem verifyPayment_match_refines_createDonation
    (hmacSha256 : String → String → String) (secret : String) (db : DB)
    (r : PaymentReq) (a : Int)
    (hsig : r.signature = expectedSignature hmacSha256 secret r.orderId r.paymentId)
    (hamt : r.amount = some a) :
    ∃ d, verifyPayment hmacSha256 secret db r
        = (.created 200 d, { db with donations := db.donations ++ [d] }) ∧
      d.amount = a ∧
      createDonation db (paymentToDonationReq r)
        = (.created 201 d, { db with donations := db.donations ++ [d] }) :=
  verifyPayment_accept_helper hmacSha256 secret db r a hsig hamt

/-- C3 witness: the sample authentic payment of amount 75 naming child "c1"
commits exactly the record createDonation would commit. -/
theorem verifyPayment_match_refines_createDonation_witness :
    (reqPay75.signature
        = expectedSignature hmacSample "sk" reqPay75.orderId reqPay75.paymentId ∧
      reqPay75.amount = some 75) ∧
    ∃ d, verifyPayment hmacSample "sk" dbOneChild reqPay75
        = (.created 200 d,
           { dbOneChild with donations := dbOneChild.donations ++ [d] }) ∧
      d.amount = 75 ∧
      createDonation dbOneChild (paymentToDonationReq reqPay75)
        = (.created 201 d,
           { dbOneChild with donations := dbOneChild.donations ++ [d] }) :=
  ⟨⟨by decide, rfl⟩,
   verifyPayment_match_refines_createDonation hmacSample "sk" dbOneChild
     reqPay75 75 (by decide) rfl⟩

/-- C9: the accept/reject verdict of verifyPayment is independent of the
amount field — two requests equal after erasing their amounts share the same
verdict — and on acceptance the client-supplied amount is persisted to the
ledger as-is, for any amount whatsoever: no stored gateway order is consulted
(the operation reads no order state at all). -/
theorem verifyPayment_amount_independent (hmacSha256 : String → String → String)
    (secret : String) (db : DB) (r1 r2 : PaymentReq) (a : Int)
    (hsame : { r1 with amount := none } = { r2 with amount := none }) :
    paymentRejected (verifyPayment hmacSha256 secret db r1)
      = paymentRejected (verifyPayment hmacSha256 secret db r2) ∧
    (r1.amount = some a →
      r1.signature = expectedSignature hmacSha256 secret r1.orderId r1.paymentId →
      ∃ d, verifyPayment hmacSha256 secret db r1
          = (.created 200 d, { db with donations := db.donations ++ [d] }) ∧
        d.amount = a) := by
  constructor
  · rw [paymentRejected_verifyPayment, paymentRejected_verifyPayment]
    injection hsame with hu ho hp hsg ha hm hc hor
    rw [ho, hp, hsg]
  · intro hamt hsig
    obtain ⟨d, hd, hda, _⟩ :=
      verifyPayment_accept_helper hmacSha256 secret db r1 a hsig hamt
    exact ⟨d, hd, hda⟩

/-- C9 witness: two authentic payment requests differing only in amount (75
versus 9999) share the accept verdict, and the first persists its supplied
amount 75. -/
theorem verifyPayment_amount_independent_witness :
    ({ reqPay75 with amount := none }
        = { reqPay75 with amount := (none : Option Int) } ∧
      reqPay75.amount = some 75 ∧
      reqPay75.signature
        = expectedSignature hmacSample "sk" reqPay75.orderId reqPay75.paymentId) ∧
    (paymentRejected (verifyPayment hmacSample "sk" dbOneChild reqPay75)
      = paymentRejected (verifyPayment hmacSample "sk" dbOneChild
          { reqPay75 with amount := some 9999 }) ∧
    (reqPay75.amount = some 75 →
      reqPay75.signature
        = expectedSignature hmacSample "sk" reqPay75.orderId reqPay75.paymentId →
      ∃ d, verifyPayment hmacSample "sk" dbOneChild reqPay75
          = (.created 200 d,
             { dbOneChild with donations := dbOneChild.donations ++ [d] }) ∧
        d.amount = 75)) :=
  ⟨⟨rfl, rfl, by decide⟩,
   verifyPayment_amount_independent hmacSample "sk" dbOneChild reqPay75
     { reqPay75 with amount := some 9999 } 75 rfl⟩

/-- C4: for a scheme that exists, getSchemeMatches returns exactly the
children satisfying the conjunction of whichever age bounds its eligibility
rule carries — age at least minAge when present, age at most maxAge when
present, bounds inclusive, no age condition when neither is present — and the
predicate is invariant under the rule's requiredDocuments and targetGroup. -/
theorem getSchemeMatches_age_bounds (db : DB) (sid : String) (s : Scheme)
    (hs : findSchemeById db sid = some s) :
    getSchemeMatches db sid
      = .ok 200
          (db.children.filter
            (claimAgePred (s.eligibilityRules.getD emptyRules))).length
          s.name
          (db.children.filter
            (claimAgePred (s.eligibilityRules.getD emptyRules))) ∧
    ∀ docs tg c, claimAgePred
        { minAge := (s.eligibilityRules.getD emptyRules).minAge,
          maxAge := (s.eligibilityRules.getD emptyRules).maxAge,
          requiredDocuments := docs, targetGroup := tg } c
      = claimAgePred (s.eligibilityRules.getD emptyRules) c := by
  constructor
  · have hf : db.children.filter
        (ageQueryFilter (s.eligibilityRules.getD emptyRules))
        = db.children.filter (claimAgePred (s.eligibilityRules.getD emptyRules)) :=
      List.filter_congr (fun c _ => ageQueryFilter_eq_claimAgePred _ c)
    simp [getSchemeMatches, hs, hf]
  · intro docs tg c
    rfl

/-- C4 witness: the scheme with only minAge 6 matches exactly the children of
age at least 6, regardless of its requiredDocuments and targetGroup. -/
theorem getSchemeMatches_age_bounds_witness :
    findSchemeById dbWithSchemes "s1" = some schemeMinOnly ∧
    getSchemeMatches dbWithSchemes "s1"
      = .ok 200
          (dbWithSchemes.children.filter
            (claimAgePred (schemeMinOnly.eligibilityRules.getD emptyRules))).length
          schemeMinOnly.name
          (dbWithSchemes.children.filter
            (claimAgePred (schemeMinOnly.eligibilityRules.getD emptyRules))) ∧
    ∀ docs tg c, claimAgePred
        { minAge := (schemeMinOnly.eligibilityRules.getD emptyRules).minAge,
          maxAge := (schemeMinOnly.eligibilityRules.getD emptyRules).maxAge,
          requiredDocuments := docs, targetGroup := tg } c
      = claimAgePred (schemeMinOnly.eligibilityRules.getD emptyRules) c :=
  ⟨by decide,
   getSchemeMatches_age_bounds dbWithSchemes "s1" schemeMinOnly (by decide)⟩

/-- C10: a child whose age is unset is excluded from getSchemeMatches
whenever the scheme's eligibility rule carries at least one of minAge and
maxAge, and included when the rule carries neither. -/
theorem getSchemeMatches_unset_age (db : DB) (sid : String) (s : Scheme)
    (elig : EligibilityRules) (c : Child)
    (hs : findSchemeById db sid = some s)
    (helig : s.eligibilityRules = some elig)
    (hc : c ∈ db.children) (hage : c.age = none) :
    ∃ cs, getSchemeMatches db sid = .ok 200 cs.length s.name cs ∧
      ((elig.minAge.isSome ∨ elig.maxAge.isSome) → c ∉ cs) ∧
      (elig.minAge = none → elig.maxAge = none → c ∈ cs) := by
  refine ⟨db.children.filter (ageQueryFilter elig), ?_, ?_, ?_⟩
  · simp [getSchemeMatches, hs, helig]
  · intro hb hmem
    rw [List.mem_filter] at hmem
    have hcond : (elig.minAge.isSome || elig.maxAge.isSome) = true := by
      rcases hb with hb | hb <;> simp [hb]
    have hfalse := hmem.2
    simp [ageQueryFilter, hcond, hage] at hfalse
  · intro h1 h2
    rw [List.mem_filter]
    exact ⟨hc, by simp [ageQueryFilter, h1, h2]⟩

/-- C10 witness: applied at the minAge-only scheme "s1" and the age-less
child "c2", yielding the exclusion conjunct concretely (the inclusion
conjunct holds vacuously there, its bound hypotheses being false). -/
theorem getSchemeMatches_unset_age_witness :
    (findSchemeById dbWithSchemes "s1" = some schemeMinOnly ∧
      schemeMinOnly.eligibilityRules
        = some { minAge := some 6, maxAge := none,
                 requiredDocuments := ["Aadhaar"], targetGroup := ["orphan"] } ∧
      childNoAge ∈ dbWithSchemes.children ∧ childNoAge.age = none) ∧
    ∃ cs, getSchemeMatches dbWithSchemes "s1"
        = .ok 200 cs.length schemeMinOnly.name cs ∧
      (((some 6 : Option Int).isSome ∨ (none : Option Int).isSome) →
        childNoAge ∉ cs) ∧
      ((some 6 : Option Int) = none → (none : Option Int) = none →
        childNoAge ∈ cs) :=
  ⟨⟨by decide, rfl, by decide, rfl⟩,
   getSchemeMatches_unset_age dbWithSchemes "s1" schemeMinOnly
     { minAge := some 6, maxAge := none, requiredDocuments := ["Aadhaar"],
       targetGroup := ["orphan"] }
     childNoAge (by decide) rfl (by decide) rfl⟩

/-- C5: the claim says POST /donations executes createDonation and returns
the persisted record; the mounted route handler does neither.  Its body
throws a ReferenceError on the unbound identifier `Donation` before any store
access, so it unconditionally responds 500 "Donation failed" and persists
nothing, while createDonation on the very same request responds 201 and
appends a record — the route never runs the imported controller. -/
theorem donationRoutePost_does_not_run_createDonation :
    donationRoutePostHandler dbEmpty reqGeneral100
      = (.error 500 "Donation failed", dbEmpty) ∧
    ((donationRoutePostHandler dbEmpty reqGeneral100).2).donations = [] ∧
    (createDonation dbEmpty reqGeneral100).1
      ≠ (donationRoutePostHandler dbEmpty reqGeneral100).1 ∧
    ((createDonation dbEmpty reqGeneral100).2).donations ≠ [] :=
  ⟨rfl, rfl, by decide, by decide⟩

end NextNest
